import Mathlib

/-!
Verification model of the riddler puzzle-marathon bot (src/riddler/marathon.py).

The development has two layers.

The VALUE layer renders the entity classes and their methods: `Puzzle`,
`Team`, `Attempt`, `AttemptTimer` are records (in the source they are
`DotDict` subclasses — dictionaries whose attribute access is item access —
so a record with exactly the declared fields is the content of such an
object), with `Attempt.unlock`/`Attempt.submit`, `find_team` on team values,
timedelta rendering `tdStr`, and the timestamp text forms `dtStr`/`dtParse`
(`str(datetime)` = `isoformat(' ')`, and `fromisoformat` / the yaml timestamp
constructor on the canonical shapes serialised values take).  Python
dictionaries are association lists in insertion order (`alistGet`,
`alistSet`, `alistModify`).

The RUNTIME layer renders what the persistence code actually executes, which
differs from the entity layer in two load-bearing ways visible in the source:

* `Marathon.load` is a bare `yaml_load`: it returns PLAIN mappings and never
  constructs an entity object (the entity classes' `load` methods are dead
  code on this path).  Attribute access such as `team.role`,
  `relevant_attempt.state` or `teams[team].channels` works only on instances
  of the `DotDict` entity classes; on a plain dict it raises AttributeError.
  `PyObj` records this: every runtime value is `entity` (attribute access
  succeeds, as item access) or `plain` (attribute access raises).  `loadR`
  returns plain values only; yaml's native timestamp constructor does turn
  timestamp scalars into datetime values, which is the one conversion the
  load performs.
* `Marathon.store` yaml-dumps with a `SafeDumper` subclass.  SafeDumper has
  representers for the exact standard types only, so any `DotDict` entity
  instance (a dict subclass) falls through to `represent_undefined` and
  raises RepresenterError — after `open(..., 'w')` has already truncated the
  file.  Plain content (mappings, scalars, datetimes rendered
  `isoformat(' ')`) dumps fine.  `storeR` renders this, including the
  `if puzzles:` / `if teams:` truthiness test that skips a `None` or empty
  collection, and the attempts-then-puzzles-then-teams write order.

Each command handler (`unlockR`, `submitR`, `initializeR`, the admin
commands, `list_playersR`) is a total function returning a `Run`: the
observable events in execution order (load, user-visible denial, completed
store, confirmation text), the resulting file state, and the uncaught
exception when the invocation died.  Confirmation events carry the embed's
description text; embed titles are not modelled.  A truncated or otherwise
malformed file makes the surrounding command die at or right after the load;
these shapes are collapsed into a failed load (`none`), which no theorem
exercises further.
-/

/-- The three attempt states (`AttemptState` literal in the source). -/
inductive AttemptState
| notStarted
| inProgress
| submitted
deriving DecidableEq, Repr

/-- The literal string of an attempt state as it appears in the source. -/
def stateStr : AttemptState → String
| .notStarted => "not started"
| .inProgress => "in progress"
| .submitted => "submitted"

/-- A broken-down `datetime.datetime` value. -/
structure DT where
  year : Nat
  month : Nat
  day : Nat
  hour : Nat
  minute : Nat
  second : Nat
  usec : Nat
deriving DecidableEq, Repr

/-- The field invariants `datetime` maintains (`MINYEAR/MAXYEAR`, calendar
bounds); every `datetime` value satisfies them. -/
def DT.validB (d : DT) : Bool :=
  1 ≤ d.year && d.year ≤ 9999 && 1 ≤ d.month && d.month ≤ 12 &&
  1 ≤ d.day && d.day ≤ 31 && d.hour ≤ 23 && d.minute ≤ 59 &&
  d.second ≤ 59 && d.usec ≤ 999999

/-- Two-character zero-padded decimal rendering (`%02d` for values below 100). -/
def pad2 (n : Nat) : List Char :=
  [Nat.digitChar (n / 10), Nat.digitChar (n % 10)]

/-- Four-character zero-padded decimal rendering (`%04d` for values below 10000). -/
def pad4 (n : Nat) : List Char :=
  [Nat.digitChar (n / 1000 % 10), Nat.digitChar (n / 100 % 10),
   Nat.digitChar (n / 10 % 10), Nat.digitChar (n % 10)]

/-- Six-character zero-padded decimal rendering (`%06d` for values below 1000000). -/
def pad6 (n : Nat) : List Char :=
  [Nat.digitChar (n / 100000 % 10), Nat.digitChar (n / 10000 % 10),
   Nat.digitChar (n / 1000 % 10), Nat.digitChar (n / 100 % 10),
   Nat.digitChar (n / 10 % 10), Nat.digitChar (n % 10)]

/-- `str(datetime)`, i.e. `isoformat(sep=' ')`: `YYYY-MM-DD HH:MM:SS` with a
`.ffffff` suffix exactly when the microsecond field is nonzero.  This is also
the scalar text pyyaml emits for a `datetime` value. -/
def dtChars (d : DT) : List Char :=
  pad4 d.year ++ '-' :: pad2 d.month ++ '-' :: pad2 d.day ++
  ' ' :: pad2 d.hour ++ ':' :: pad2 d.minute ++ ':' :: pad2 d.second ++
  (if d.usec = 0 then [] else '.' :: pad6 d.usec)

/-- String form of `dtChars`. -/
def dtStr (d : DT) : String := String.mk (dtChars d)

/-- Reads a two-digit group, the building block of the timestamp grammar. -/
def digit2 (a b : Char) : Option Nat :=
  if a.isDigit && b.isDigit
  then some ((a.toNat - 48) * 10 + (b.toNat - 48))
  else none

/-- Checks the five separator characters of a timestamp: `-`, `-`, a space or
`T`, `:`, `:`. -/
def sepOk (c1 c2 c3 c4 c5 : Char) : Bool :=
  c1 = '-' && c2 = '-' && (c3 = ' ' || c3 = 'T') && c4 = ':' && c5 = ':'

/-- Parses the optional fractional-second suffix: empty means zero
microseconds, otherwise a `.` followed by exactly six digits. -/
def parseUsec (rest : List Char) : Option Nat :=
  match rest with
  | [] => some 0
  | c6 :: u1 :: u2 :: u3 :: u4 :: u5 :: u6 :: [] =>
    if c6 = '.' then
      (digit2 u1 u2).bind fun ua =>
      (digit2 u3 u4).bind fun ub =>
      (digit2 u5 u6).map fun uc => (ua * 100 + ub) * 100 + uc
    else none
  | _ => none

/-- Timestamp parsing (`datetime.fromisoformat` / yaml timestamp resolution)
restricted to the canonical shapes that serialised timestamps take. -/
def dtParseChars (cs : List Char) : Option DT :=
  match cs with
  | y1 :: y2 :: y3 :: y4 :: c1 :: mo1 :: mo2 :: c2 :: dy1 :: dy2 :: c3 ::
    h1 :: h2 :: c4 :: mi1 :: mi2 :: c5 :: se1 :: se2 :: rest =>
    if sepOk c1 c2 c3 c4 c5 then
      (digit2 y1 y2).bind fun yh =>
      (digit2 y3 y4).bind fun yl =>
      (digit2 mo1 mo2).bind fun mo =>
      (digit2 dy1 dy2).bind fun dy =>
      (digit2 h1 h2).bind fun hh =>
      (digit2 mi1 mi2).bind fun mi =>
      (digit2 se1 se2).bind fun se =>
      (parseUsec rest).map fun u => ⟨yh * 100 + yl, mo, dy, hh, mi, se, u⟩
    else none
  | _ => none

/-- Timestamp parsing on strings. -/
def dtParse (s : String) : Option DT := dtParseChars s.data

/-- Dictionary item lookup `m[k]` on an insertion-ordered dictionary:
the value of the first entry carrying the key, `none` for a `KeyError`. -/
def alistGet {κ α : Type} [DecidableEq κ] : List (κ × α) → κ → Option α
| [], _ => none
| (k', v) :: rest, k => if k' = k then some v else alistGet rest k

/-- Dictionary item assignment `m[k] = v`: replaces the value at the key in
place (keeping its position), appending a new entry when the key is absent. -/
def alistSet {κ α : Type} [DecidableEq κ] : List (κ × α) → κ → α → List (κ × α)
| [], k, v => [(k, v)]
| (k', v') :: rest, k, v =>
  if k' = k then (k', v) :: rest else (k', v') :: alistSet rest k v

/-- Two-level lookup `m[k1][k2]`. -/
def alistGet2 {κ α : Type} [DecidableEq κ] (m : List (κ × List (κ × α))) (k1 k2 : κ) :
    Option α :=
  (alistGet m k1).bind fun row => alistGet row k2

/-- In-place mutation of the value stored at a key (a no-op when absent). -/
def alistModify {κ α : Type} [DecidableEq κ] : List (κ × α) → κ → (α → α) → List (κ × α)
| [], _, _ => []
| (k', v) :: rest, k, f =>
  if k' = k then (k', f v) :: rest else (k', v) :: alistModify rest k f

/-- Two-level assignment `m[k1][k2] = v` (the handlers only use it after a
successful `m[k1][k2]` lookup, so the outer key is present). -/
def alistSet2 {κ α : Type} [DecidableEq κ] (m : List (κ × List (κ × α))) (k1 k2 : κ)
    (v : α) : List (κ × List (κ × α)) :=
  alistModify m k1 fun row => alistSet row k2 v

/-- `Puzzle` entity: id, name, category, points, url. -/
structure Puzzle where
  id : String
  name : String
  category : String
  points : Int
  url : String
deriving DecidableEq, Repr

/-- `Team` entity: name, member ids, channel ids, per-guild role mapping. -/
structure Team where
  name : String
  members : List Int
  channels : List Int
  role : List (Int × Int)
deriving DecidableEq, Repr

/-- `AttemptTimer` entity (in-memory form, timestamps are `datetime` values). -/
structure AttemptTimer where
  start : Option DT
  end_ : Option DT
  duration : Option String
deriving DecidableEq, Repr

/-- `Attempt` entity (in-memory form). -/
structure Attempt where
  puzzle : String
  team : String
  state : AttemptState
  timer : AttemptTimer
  link : Option String
deriving DecidableEq, Repr

/-- Serialised `AttemptTimer`: in the file a timestamp is its rendered text. -/
structure SAttemptTimer where
  start : Option String
  end_ : Option String
  duration : Option String
deriving DecidableEq, Repr

/-- Serialised `Attempt`. -/
structure SAttempt where
  puzzle : String
  team : String
  state : AttemptState
  timer : SAttemptTimer
  link : Option String
deriving DecidableEq, Repr

/-- Gregorian leap-year test (`calendar.isleap`). -/
def isLeap (y : Nat) : Bool := y % 4 == 0 && (y % 100 != 0 || y % 400 == 0)

/-- Days in the year strictly before the given month (non-leap).
`_days_before_month` of the `datetime` module. -/
def daysBeforeMonth (m : Nat) : Nat :=
  match m with
  | 1 => 0 | 2 => 31 | 3 => 59 | 4 => 90 | 5 => 120 | 6 => 151
  | 7 => 181 | 8 => 212 | 9 => 243 | 10 => 273 | 11 => 304 | 12 => 334
  | _ => 0

/-- Proleptic Gregorian ordinal of a calendar date (`datetime.toordinal`). -/
def toOrdinal (y m d : Nat) : Nat :=
  365 * (y - 1) + (y - 1) / 4 + (y - 1) / 400 - (y - 1) / 100 +
  daysBeforeMonth m + (if 2 < m && isLeap y then 1 else 0) + d

/-- A `datetime` value as microseconds on the proleptic Gregorian axis;
`datetime` subtraction is exact subtraction of these counts. -/
def DT.toUsec (d : DT) : Nat :=
  (((toOrdinal d.year d.month d.day * 24 + d.hour) * 60 + d.minute) * 60 + d.second)
    * 1000000 + d.usec

/-- String form of `pad2`. -/
def pad2s (n : Nat) : String := String.mk (pad2 n)

/-- String form of `pad6`. -/
def pad6s (n : Nat) : String := String.mk (pad6 n)

/-- `str(timedelta)` for a signed microsecond count: normalises to
(days, seconds, microseconds) with the latter two nonnegative, then prints
`H:MM:SS`, a `D day(s), ` prefix when days is nonzero, and a `.ffffff`
suffix when microseconds is nonzero. -/
def tdStr (x : Int) : String :=
  let days : Int := Int.fdiv x 86400000000
  let rem : Nat := (Int.fmod x 86400000000).toNat
  let secs : Nat := rem / 1000000
  let micro : Nat := rem % 1000000
  let hh : String := toString (secs / 3600)
  let mm : String := pad2s (secs / 60 % 60)
  let ss : String := pad2s (secs % 60)
  let base : String := hh ++ ":" ++ mm ++ ":" ++ ss
  let base : String :=
    if days = 0 then base
    else
      let suffix : String := if days = 1 ∨ days = -1 then "" else "s"
      toString days ++ " day" ++ suffix ++ ", " ++ base
  if micro = 0 then base else base ++ "." ++ pad6s micro

/-- `str(end - start)` for two timestamps. -/
def durDiff (e s : DT) : String := tdStr ((e.toUsec : Int) - (s.toUsec : Int))

/-- `AttemptTimer.unlock`: `self.start = datetime.now()`. -/
def AttemptTimer.unlock (t : AttemptTimer) (now : DT) : AttemptTimer :=
  { t with start := some now }

/-- `AttemptTimer.submit`: `self.end = datetime.now(); self.duration =
str(self.end - self.start)`.  A missing start raises (`datetime - None`),
modelled as `none`. -/
def AttemptTimer.submit (t : AttemptTimer) (now : DT) : Option AttemptTimer :=
  match t.start with
  | none => none
  | some s => some { t with end_ := some now, duration := some (durDiff now s) }

/-- `Attempt.unlock`: state becomes `in progress` and the timer starts. -/
def Attempt.unlock (a : Attempt) (now : DT) : Attempt :=
  { a with state := AttemptState.inProgress, timer := a.timer.unlock now }

/-- `Attempt.submit`: state becomes `submitted`, the timer is stamped and the
link recorded. -/
def Attempt.submit (a : Attempt) (link : String) (now : DT) : Option Attempt :=
  (a.timer.submit now).map fun t =>
    { a with state := AttemptState.submitted, timer := t, link := some link }

/-- Timer serialisation: present timestamps are rendered to text, the
duration string is written verbatim. -/
def AttemptTimer.dump (t : AttemptTimer) : SAttemptTimer :=
  ⟨t.start.map dtStr, t.end_.map dtStr, t.duration⟩

/-- Deserialises one optional timestamp; an unparsable text raises. -/
def parseOptTs : Option String → Option (Option DT)
| none => some none
| some s => (dtParse s).map some

/-- Timer deserialisation: present timestamps are parsed back to values, the
duration string is taken verbatim, never recomputed. -/
def SAttemptTimer.parse (t : SAttemptTimer) : Option AttemptTimer :=
  (parseOptTs t.start).bind fun s =>
  (parseOptTs t.end_).map fun e => ⟨s, e, t.duration⟩

/-- Attempt serialisation. -/
def Attempt.dump (a : Attempt) : SAttempt :=
  ⟨a.puzzle, a.team, a.state, a.timer.dump, a.link⟩

/-- Attempt deserialisation. -/
def SAttempt.parse (a : SAttempt) : Option Attempt :=
  a.timer.parse.map fun tm => ⟨a.puzzle, a.team, a.state, tm, a.link⟩

/-- The puzzles collection, keyed by puzzle id. -/
abbrev Puzzles := List (String × Puzzle)

/-- The teams collection, keyed by team name. -/
abbrev Teams := List (String × Team)

/-- The attempt matrix, keyed by puzzle id then team name (in-memory form). -/
abbrev Attempts := List (String × List (String × Attempt))

/-- The attempt matrix as persisted. -/
abbrev AttemptsS := List (String × List (String × SAttempt))

/-- Serialises the attempt matrix. -/
def dumpAttempts (a : Attempts) : AttemptsS :=
  a.map fun pr => (pr.1, pr.2.map fun tr => (tr.1, tr.2.dump))

/-- Effectful map over a list in order, failing as soon as an element fails
(the option-valued `mapM`). -/
def optMapM {α β : Type} (f : α → Option β) : List α → Option (List β)
| [] => some []
| x :: xs => (f x).bind fun y => (optMapM f xs).map fun ys => y :: ys

/-- A calling member: identifier plus the role ids granted to the member in
the current server. -/
structure MemberM where
  id : Int
  roles : List Int
deriving DecidableEq, Repr

/-- The per-invocation context: calling member, channel and guild. -/
structure Ctx where
  user : MemberM
  channelId : Int
  guildId : Int
deriving DecidableEq, Repr

/-- The bot configuration relevant here: the owner (organizer) id set. -/
structure BotCfg where
  ownerIds : List Int
deriving DecidableEq, Repr

/-- `member.mention`. -/
def MemberM.mention (m : MemberM) : String := "<@" ++ toString m.id ++ ">"

/-- `Team.repr`: the role mention for the current guild when mapped,
otherwise the team name. -/
def Team.reprI (t : Team) (guildId : Int) : String :=
  match alistGet t.role guildId with
  | some rid => "<@&" ++ toString rid ++ ">"
  | none => t.name

/-- Denial text of `ensure_owner`. -/
def ownerDeny : String := "You need to be an Organizer to do that."

/-- Denial text of `ensure_team`. -/
def teamDeny : String := "You need to be on a team to do that."

/-- Denial text of `ensure_channel`. -/
def channelDeny (team : Team) : String :=
  let allowed := String.intercalate "\n" (team.channels.map fun ch => "- <#" ++ toString ch ++ ">")
  "You are not allowed to do that in this channel. Try one of these:\n" ++ allowed

/-- Denial text of `ensure_state`. -/
def stateDeny (state expected : AttemptState) : String :=
  "This puzzle is " ++ stateStr state ++ "; expected it to be " ++ stateStr expected ++ "!"

/-- Whether a role granted to the member maps to the team under the team's
role mapping (clause (a) of the matching rule). -/
def roleMatches (member : MemberM) (team : Team) : Bool :=
  member.roles.any fun r => (team.role.map Prod.snd).contains r

/-- Whether the member is directly listed in the team's members
(clause (b) of the matching rule). -/
def memberMatches (member : MemberM) (team : Team) : Bool :=
  team.members.contains member.id

/-- `Marathon.find_team`: walks the teams in collection order; a team matches
when a role granted to the member is among the values of the team's role
mapping (checked first) or when the member id is listed in the team's
members (checked second); the first matching team is returned. -/
def find_team (member : MemberM) : Teams → Option Team
| [] => none
| (_, team) :: rest =>
  if roleMatches member team then some team
  else if memberMatches member team then some team
  else find_team member rest

/-- The observable actions of a handler, in execution order: a load of the
persisted state, a user-visible denial, a store of the persisted state, a
user-visible confirmation/report. -/
inductive Event
| loadEv
| deny (msg : String)
| persist
| confirm (msg : String)
deriving DecidableEq, Repr

/-- `initialize` upload row for one puzzle (the id is the mapping key). -/
structure PuzzleUp where
  name : String
  category : String
  points : Int
  url : String
deriving DecidableEq, Repr

/-- `initialize` upload row for one team (the name is the mapping key);
the role mapping defaults to empty. -/
structure TeamUp where
  members : List Int
  channels : List Int
  role : Option (List (Int × Int))
deriving DecidableEq, Repr

/-- `{ k: Puzzle(**{**v, 'id': k}) for k, v in puzzle_data.items() }`. -/
def mkPuzzleDict (pu : List (String × PuzzleUp)) : Puzzles :=
  pu.map fun pr =>
    (pr.1, { id := pr.1, name := pr.2.name, category := pr.2.category,
             points := pr.2.points, url := pr.2.url })

/-- `{ k: Team(**{**v, 'name': k}) for k, v in team_data.items() }`. -/
def mkTeamDict (tu : List (String × TeamUp)) : Teams :=
  tu.map fun tr =>
    (tr.1, { name := tr.1, members := tr.2.members, channels := tr.2.channels,
             role := tr.2.role.getD [] })

/-- The fresh timer of a new attempt (`timer = {}` default). -/
def freshTimer : AttemptTimer := ⟨none, none, none⟩

/-- The dense attempt matrix built by `initialize`: one `not started` attempt
per (puzzle, team) pair. -/
def mkMatrix (pd : Puzzles) (td : Teams) : Attempts :=
  pd.map fun pr =>
    (pr.1, td.map fun tr =>
      (tr.1, { puzzle := pr.1, team := tr.1, state := AttemptState.notStarted,
               timer := freshTimer, link := none }))


/-- A Python runtime value whose structural content is `α`: an instance of
one of the `DotDict` entity classes (attribute access is item access and
succeeds) or a PLAIN dict holding the same items (attribute access raises
AttributeError).  `yaml_load` constructs plain dicts only; the entity
constructors used by `initialize` build entity instances. -/
inductive PyObj (α : Type)
| entity (a : α)
| plain (a : α)
deriving DecidableEq, Repr

/-- The structural content of a runtime value. -/
def PyObj.val {α : Type} : PyObj α → α
| .entity a => a
| .plain a => a

/-- Whether the runtime value is an instance of a `DotDict` entity class
(a dict subclass, which the SafeDumper cannot represent). -/
def PyObj.isEntity {α : Type} : PyObj α → Bool
| .entity _ => true
| .plain _ => false

/-- Attribute access `obj.attr` as Python resolves it on these values: item
access on a `DotDict` entity instance, AttributeError (`none`) on a plain
dict. -/
def PyObj.getattr {α β : Type} (x : PyObj α) (f : α → β) : Option β :=
  match x with
  | .entity a => some (f a)
  | .plain _ => none

/-- The uncaught exceptions the marathon code can raise. -/
inductive PyExn
| attributeError
| keyError
| typeError
| representerError
| fileNotFoundError
deriving DecidableEq, Repr

/-- One data file: absent, holding a parsed yaml document, or truncated —
opened with mode `w` by `_store` but left empty because the dump raised
before emitting. -/
inductive FileSt (α : Type)
| absent
| holds (a : α)
| truncated
deriving DecidableEq, Repr

/-- The persisted state of the three data files. -/
structure FilesR where
  attemptsFile : FileSt AttemptsS
  puzzlesFile : FileSt Puzzles
  teamsFile : FileSt Teams
deriving DecidableEq, Repr

/-- The outcome of one handler invocation: the observable events in
execution order, the resulting file state, and the uncaught exception when
the invocation died. -/
structure Run where
  events : List Event
  files : FilesR
  exn : Option PyExn
deriving DecidableEq, Repr

/-- The loaded attempts matrix: runtime values at the leaves. -/
abbrev PAttempts := List (String × List (String × PyObj Attempt))

/-- The loaded puzzles collection. -/
abbrev PPuzzles := List (String × PyObj Puzzle)

/-- The loaded teams collection. -/
abbrev PTeams := List (String × PyObj Team)

/-- Wraps a roster collection as plain runtime values (what `yaml_load`
returns). -/
def plainRoster {α : Type} (l : List (String × α)) : List (String × PyObj α) :=
  l.map fun pr => (pr.1, PyObj.plain pr.2)

/-- Wraps a roster collection as entity instances (what the entity
constructors build). -/
def entityRoster {α : Type} (l : List (String × α)) : List (String × PyObj α) :=
  l.map fun pr => (pr.1, PyObj.entity pr.2)

/-- Wraps an attempts matrix as plain runtime values. -/
def plainAttempts (a : Attempts) : PAttempts :=
  a.map fun pr => (pr.1, pr.2.map fun tr => (tr.1, PyObj.plain tr.2))

/-- Wraps an attempts matrix as entity instances. -/
def entityAttempts (a : Attempts) : PAttempts :=
  a.map fun pr => (pr.1, pr.2.map fun tr => (tr.1, PyObj.entity tr.2))

/-- Parses the persisted attempts document as `yaml_load` does: the mapping
structure stays raw (plain values — no `Attempt` entity is constructed) and
timestamp scalars become datetime values (the yaml timestamp constructor,
`dtParse`); `SAttempt.parse` here supplies only that structural content. -/
def parseAttemptsR (s : AttemptsS) : Option PAttempts :=
  optMapM (fun pr =>
    (optMapM (fun tr => (SAttempt.parse tr.2).map fun a => (tr.1, PyObj.plain a)) pr.2).map
      fun row => (pr.1, row)) s

/-- Source `Marathon.load`: bare `yaml_load` of attempts, puzzles, teams in
that order, returning raw mappings and constructing no entities.  A missing
file raises FileNotFoundError; a truncated or otherwise malformed file makes
the command die at or right after the load and is collapsed into a failed
load, which no theorem exercises. -/
def loadR (fs : FilesR) : Option (PAttempts × PPuzzles × PTeams) :=
  match fs.attemptsFile with
  | FileSt.holds sa =>
    match parseAttemptsR sa with
    | some a =>
      match fs.puzzlesFile with
      | FileSt.holds ps =>
        match fs.teamsFile with
        | FileSt.holds ts => some (a, plainRoster ps, plainRoster ts)
        | _ => none
      | _ => none
    | none => none
  | _ => none

/-- Whether yaml-dumping the attempts mapping raises: it does exactly when
some value in it is a `DotDict` entity instance. -/
def attemptsHasEntity (a : PAttempts) : Bool :=
  a.any fun pr => pr.2.any fun tr => tr.2.isEntity

/-- Whether yaml-dumping a roster mapping raises. -/
def rosterHasEntity {α : Type} (l : List (String × PyObj α)) : Bool :=
  l.any fun pr => pr.2.isEntity

/-- The structural content of a runtime attempts matrix. -/
def stripAttempts (a : PAttempts) : Attempts :=
  a.map fun pr => (pr.1, pr.2.map fun tr => (tr.1, tr.2.val))

/-- The structural content of a runtime roster collection. -/
def stripRoster {α : Type} (l : List (String × PyObj α)) : List (String × α) :=
  l.map fun pr => (pr.1, pr.2.val)

/-- The teams leg of `store` (runs only when the earlier writes succeeded):
skipped when `None` or empty, truncates-and-raises on entity content,
otherwise writes the serialised mapping. -/
def storeTeamsR (fs : FilesR) (teams : Option PTeams) : FilesR × Option PyExn :=
  match teams with
  | none => (fs, none)
  | some ts =>
    if ts.isEmpty then (fs, none)
    else if rosterHasEntity ts then
      ({ fs with teamsFile := FileSt.truncated }, some PyExn.representerError)
    else ({ fs with teamsFile := FileSt.holds (stripRoster ts) }, none)

/-- The puzzles leg of `store`, followed by the teams leg. -/
def storePuzzlesR (fs : FilesR) (puzzles : Option PPuzzles) (teams : Option PTeams) :
    FilesR × Option PyExn :=
  match puzzles with
  | none => storeTeamsR fs teams
  | some ps =>
    if ps.isEmpty then storeTeamsR fs teams
    else if rosterHasEntity ps then
      ({ fs with puzzlesFile := FileSt.truncated }, some PyExn.representerError)
    else storeTeamsR { fs with puzzlesFile := FileSt.holds (stripRoster ps) } teams

/-- Source `Marathon.store`: `_store(attempts)` first — `open(..., 'w')`
truncates the file, then the yaml dump raises RepresenterError when the
value contains any entity instance, else writes the serialised content
(datetimes rendered `isoformat(' ')`, i.e. `dtStr`) — then puzzles and teams
under the `if puzzles:` / `if teams:` truthiness test. -/
def storeR (fs : FilesR) (attempts : PAttempts) (puzzles : Option PPuzzles)
    (teams : Option PTeams) : FilesR × Option PyExn :=
  if attemptsHasEntity attempts then
    ({ fs with attemptsFile := FileSt.truncated }, some PyExn.representerError)
  else
    storePuzzlesR
      { fs with attemptsFile := FileSt.holds (dumpAttempts (stripAttempts attempts)) }
      puzzles teams

/-- `find_team` as executed on loaded values: the first clause reads
`team.role`, so the first plain-dict team raises AttributeError; an entity
team behaves as `find_team`; an empty collection yields `None` without
touching anything. -/
def find_teamR (member : MemberM) : PTeams → Except PyExn (Option Team)
| [] => Except.ok none
| (_, tobj) :: rest =>
  match tobj with
  | PyObj.plain _ => Except.error PyExn.attributeError
  | PyObj.entity team =>
    if roleMatches member team then Except.ok (some team)
    else if memberMatches member team then Except.ok (some team)
    else find_teamR member rest

/-- Source `initialize`: owner check, parse the uploads, build the ENTITY
dictionaries and the dense entity matrix, send the report, then store all
three collections (where the store raises on any non-empty entity
collection). -/
def Marathon.initializeR (bot : BotCfg) (ctx : Ctx)
    (puzzlesUp : Option (List (String × PuzzleUp)))
    (teamsUp : Option (List (String × TeamUp))) (fs : FilesR) : Run :=
  if ctx.user.id ∈ bot.ownerIds then
    match puzzlesUp, teamsUp with
    | some pu, some tu =>
      let pd := mkPuzzleDict pu
      let td := mkTeamDict tu
      let attempts := entityAttempts (mkMatrix pd td)
      let n1 := toString pd.length
      let n2 := toString td.length
      let ev := Event.confirm ("Initialized " ++ n1 ++ " puzzles for " ++ n2 ++ " teams.")
      let r := storeR fs attempts (some (entityRoster pd)) (some (entityRoster td))
      match r.2 with
      | none => ⟨[ev, Event.persist], r.1, none⟩
      | some ex => ⟨[ev], r.1, some ex⟩
    | _, _ => ⟨[Event.deny "Failed to load yaml file"], fs, none⟩
  else ⟨[Event.deny ownerDeny], fs, none⟩

/-- Source `unlock` on the runtime values `load` actually returns. -/
def Marathon.unlockR (ctx : Ctx) (puzzle : String) (now : DT) (fs : FilesR) : Run :=
  match loadR fs with
  | none => ⟨[], fs, some PyExn.fileNotFoundError⟩
  | some (attempts, puzzles, teams) =>
    match find_teamR ctx.user teams with
    | Except.error e => ⟨[Event.loadEv], fs, some e⟩
    | Except.ok none => ⟨[Event.loadEv, Event.deny teamDeny], fs, none⟩
    | Except.ok (some team) =>
      if ctx.channelId ∈ team.channels then
        match alistGet2 attempts puzzle team.name with
        | none => ⟨[Event.loadEv], fs, some PyExn.keyError⟩
        | some (PyObj.plain _) => ⟨[Event.loadEv], fs, some PyExn.attributeError⟩
        | some (PyObj.entity relevant) =>
          if relevant.state = AttemptState.notStarted then
            let att := relevant.unlock now
            match alistGet puzzles att.puzzle with
            | none => ⟨[Event.loadEv], fs, some PyExn.keyError⟩
            | some (PyObj.plain _) => ⟨[Event.loadEv], fs, some PyExn.attributeError⟩
            | some (PyObj.entity pz) =>
              let ev := Event.confirm ("Here\x27s a [link to the puzzle](" ++ pz.url ++ ").")
              let attempts2 := alistSet2 attempts puzzle team.name (PyObj.entity att)
              let r := storeR fs attempts2 none none
              match r.2 with
              | none => ⟨[Event.loadEv, ev, Event.persist], r.1, none⟩
              | some ex => ⟨[Event.loadEv, ev], r.1, some ex⟩
          else ⟨[Event.loadEv, Event.deny (stateDeny relevant.state AttemptState.notStarted)], fs, none⟩
      else ⟨[Event.loadEv, Event.deny (channelDeny team)], fs, none⟩

/-- Source `submit` on the runtime values `load` actually returns. -/
def Marathon.submitR (ctx : Ctx) (puzzle link : String) (now : DT) (fs : FilesR) : Run :=
  match loadR fs with
  | none => ⟨[], fs, some PyExn.fileNotFoundError⟩
  | some (attempts, puzzles, teams) =>
    match find_teamR ctx.user teams with
    | Except.error e => ⟨[Event.loadEv], fs, some e⟩
    | Except.ok none => ⟨[Event.loadEv, Event.deny teamDeny], fs, none⟩
    | Except.ok (some team) =>
      if ctx.channelId ∈ team.channels then
        match alistGet2 attempts puzzle team.name with
        | none => ⟨[Event.loadEv], fs, some PyExn.keyError⟩
        | some (PyObj.plain _) => ⟨[Event.loadEv], fs, some PyExn.attributeError⟩
        | some (PyObj.entity relevant) =>
          if relevant.state = AttemptState.inProgress then
            match relevant.submit link now with
            | none => ⟨[Event.loadEv], fs, some PyExn.typeError⟩
            | some att =>
              let dur := match att.timer.duration with
                         | some s => s
                         | none => "None"
              match alistGet puzzles att.puzzle with
              | none => ⟨[Event.loadEv], fs, some PyExn.keyError⟩
              | some (PyObj.plain _) => ⟨[Event.loadEv], fs, some PyExn.attributeError⟩
              | some (PyObj.entity _) =>
                let ev := Event.confirm ("```elapsed: " ++ dur ++ "```")
                let attempts2 := alistSet2 attempts puzzle team.name (PyObj.entity att)
                let r := storeR fs attempts2 none none
                match r.2 with
                | none => ⟨[Event.loadEv, ev, Event.persist], r.1, none⟩
                | some ex => ⟨[Event.loadEv, ev], r.1, some ex⟩
          else ⟨[Event.loadEv, Event.deny (stateDeny relevant.state AttemptState.inProgress)], fs, none⟩
      else ⟨[Event.loadEv, Event.deny (channelDeny team)], fs, none⟩

/-- Source `add_channel` on runtime values: `teams[team].channels` raises on
a plain dict; the (counterfactual) entity path mutates, stores — which
raises on the entity value — and only then would send. -/
def Marathon.add_channelR (bot : BotCfg) (ctx : Ctx) (team : String) (fs : FilesR) : Run :=
  if ctx.user.id ∈ bot.ownerIds then
    match loadR fs with
    | none => ⟨[], fs, some PyExn.fileNotFoundError⟩
    | some (attempts, _, teams) =>
      match alistGet teams team with
      | none => ⟨[Event.loadEv], fs, some PyExn.keyError⟩
      | some (PyObj.plain _) => ⟨[Event.loadEv], fs, some PyExn.attributeError⟩
      | some (PyObj.entity t) =>
        let teams2 := if ctx.channelId ∈ t.channels then teams
                      else alistSet teams team
                        (PyObj.entity { t with channels := t.channels ++ [ctx.channelId] })
        let r := storeR fs attempts none (some teams2)
        match r.2 with
        | some ex => ⟨[Event.loadEv], r.1, some ex⟩
        | none =>
          match alistGet teams2 team with
          | none => ⟨[Event.loadEv, Event.persist], r.1, some PyExn.keyError⟩
          | some (PyObj.plain _) => ⟨[Event.loadEv, Event.persist], r.1, some PyExn.attributeError⟩
          | some (PyObj.entity t2) =>
            ⟨[Event.loadEv, Event.persist,
              Event.confirm ("Added this channel to " ++ Team.reprI t2 ctx.guildId ++ ".")],
             r.1, none⟩
  else ⟨[Event.deny ownerDeny], fs, none⟩

/-- Source `remove_channel` on runtime values. -/
def Marathon.remove_channelR (bot : BotCfg) (ctx : Ctx) (team : String) (fs : FilesR) : Run :=
  if ctx.user.id ∈ bot.ownerIds then
    match loadR fs with
    | none => ⟨[], fs, some PyExn.fileNotFoundError⟩
    | some (attempts, _, teams) =>
      match alistGet teams team with
      | none => ⟨[Event.loadEv], fs, some PyExn.keyError⟩
      | some (PyObj.plain _) => ⟨[Event.loadEv], fs, some PyExn.attributeError⟩
      | some (PyObj.entity t) =>
        let teams2 := if ctx.channelId ∈ t.channels
                      then alistSet teams team
                        (PyObj.entity { t with channels := t.channels.erase ctx.channelId })
                      else teams
        let r := storeR fs attempts none (some teams2)
        match r.2 with
        | some ex => ⟨[Event.loadEv], r.1, some ex⟩
        | none =>
          match alistGet teams2 team with
          | none => ⟨[Event.loadEv, Event.persist], r.1, some PyExn.keyError⟩
          | some (PyObj.plain _) => ⟨[Event.loadEv, Event.persist], r.1, some PyExn.attributeError⟩
          | some (PyObj.entity t2) =>
            ⟨[Event.loadEv, Event.persist,
              Event.confirm ("Removed this channel from " ++ Team.reprI t2 ctx.guildId ++ ".")],
             r.1, none⟩
  else ⟨[Event.deny ownerDeny], fs, none⟩

/-- Source `add_player` on runtime values: `find_team` raises on the first
plain team; with no match, `teams[team].members` raises (plain) or KeyError
(absent). -/
def Marathon.add_playerR (bot : BotCfg) (ctx : Ctx) (player : MemberM) (team : String)
    (fs : FilesR) : Run :=
  if ctx.user.id ∈ bot.ownerIds then
    match loadR fs with
    | none => ⟨[], fs, some PyExn.fileNotFoundError⟩
    | some (attempts, _, teams) =>
      match find_teamR player teams with
      | Except.error e => ⟨[Event.loadEv], fs, some e⟩
      | Except.ok (some curr) =>
        ⟨[Event.loadEv,
          Event.deny (player.mention ++ " is already on " ++ Team.reprI curr ctx.guildId ++ ".")],
         fs, none⟩
      | Except.ok none =>
        match alistGet teams team with
        | none => ⟨[Event.loadEv], fs, some PyExn.keyError⟩
        | some (PyObj.plain _) => ⟨[Event.loadEv], fs, some PyExn.attributeError⟩
        | some (PyObj.entity t) =>
          let teams2 := alistSet teams team
            (PyObj.entity { t with members := t.members ++ [player.id] })
          let r := storeR fs attempts none (some teams2)
          match r.2 with
          | some ex => ⟨[Event.loadEv], r.1, some ex⟩
          | none =>
            match alistGet teams2 team with
            | none => ⟨[Event.loadEv, Event.persist], r.1, some PyExn.keyError⟩
            | some (PyObj.plain _) => ⟨[Event.loadEv, Event.persist], r.1, some PyExn.attributeError⟩
            | some (PyObj.entity t2) =>
              ⟨[Event.loadEv, Event.persist,
                Event.confirm ("Added " ++ player.mention ++ " to " ++
                  Team.reprI t2 ctx.guildId ++ ".")], r.1, none⟩
  else ⟨[Event.deny ownerDeny], fs, none⟩

/-- Source `remove_player` on runtime values: denial is driven by
`find_team` (which raises on the first plain team); the (counterfactual)
entity path removes from the NAMED team only when directly listed there. -/
def Marathon.remove_playerR (bot : BotCfg) (ctx : Ctx) (player : MemberM) (team : String)
    (fs : FilesR) : Run :=
  if ctx.user.id ∈ bot.ownerIds then
    match loadR fs with
    | none => ⟨[], fs, some PyExn.fileNotFoundError⟩
    | some (attempts, _, teams) =>
      match find_teamR player teams with
      | Except.error e => ⟨[Event.loadEv], fs, some e⟩
      | Except.ok none =>
        ⟨[Event.loadEv, Event.deny (player.mention ++ " is not on a team.")], fs, none⟩
      | Except.ok (some curr) =>
        match alistGet teams team with
        | none => ⟨[Event.loadEv], fs, some PyExn.keyError⟩
        | some (PyObj.plain _) => ⟨[Event.loadEv], fs, some PyExn.attributeError⟩
        | some (PyObj.entity t) =>
          let teams2 := if t.members.contains player.id
                        then alistSet teams team
                          (PyObj.entity { t with members := t.members.erase player.id })
                        else teams
          let r := storeR fs attempts none (some teams2)
          match r.2 with
          | some ex => ⟨[Event.loadEv], r.1, some ex⟩
          | none =>
            ⟨[Event.loadEv, Event.persist,
              Event.confirm ("Removed " ++ player.mention ++ " from " ++
                Team.reprI curr ctx.guildId ++ ".")], r.1, none⟩
  else ⟨[Event.deny ownerDeny], fs, none⟩

/-- Source `set_role` on runtime values. -/
def Marathon.set_roleR (bot : BotCfg) (ctx : Ctx) (team : String) (roleId : Int)
    (fs : FilesR) : Run :=
  if ctx.user.id ∈ bot.ownerIds then
    match loadR fs with
    | none => ⟨[], fs, some PyExn.fileNotFoundError⟩
    | some (attempts, _, teams) =>
      match alistGet teams team with
      | none => ⟨[Event.loadEv], fs, some PyExn.keyError⟩
      | some (PyObj.plain _) => ⟨[Event.loadEv], fs, some PyExn.attributeError⟩
      | some (PyObj.entity t) =>
        let teams2 := alistSet teams team
          (PyObj.entity { t with role := alistSet t.role ctx.guildId roleId })
        let r := storeR fs attempts none (some teams2)
        match r.2 with
        | some ex => ⟨[Event.loadEv], r.1, some ex⟩
        | none =>
          match alistGet teams2 team with
          | none => ⟨[Event.loadEv, Event.persist], r.1, some PyExn.keyError⟩
          | some (PyObj.plain _) => ⟨[Event.loadEv, Event.persist], r.1, some PyExn.attributeError⟩
          | some (PyObj.entity t2) =>
            ⟨[Event.loadEv, Event.persist,
              Event.confirm ("Team \"" ++ team ++ "\" set to " ++
                Team.reprI t2 ctx.guildId ++ " in this server.")], r.1, none⟩
  else ⟨[Event.deny ownerDeny], fs, none⟩

/-- Source `list_players` on runtime values (no owner check, no store):
`teams[team].members` raises on a plain dict. -/
def Marathon.list_playersR (ctx : Ctx) (team : String) (fs : FilesR) : Run :=
  match loadR fs with
  | none => ⟨[], fs, some PyExn.fileNotFoundError⟩
  | some (_, _, teams) =>
    match alistGet teams team with
    | none => ⟨[Event.loadEv], fs, some PyExn.keyError⟩
    | some (PyObj.plain _) => ⟨[Event.loadEv], fs, some PyExn.attributeError⟩
    | some (PyObj.entity t) =>
      let members := String.intercalate "\n" (t.members.map fun m => "- <@" ++ toString m ++ ">")
      let rep := Team.reprI t ctx.guildId
      let desc := if members ≠ "" then "__" ++ rep ++ " members__\n" ++ members
                  else "There are no players on " ++ rep ++ "."
      ⟨[Event.loadEv, Event.confirm desc], fs, none⟩

/-- Modelled from the spec: "Reading parses the persisted collections into
Puzzle/Team entities keyed by their identity field" — the load the spec
describes, returning ENTITY instances.  Stated only for comparison with the
source's `loadR`, which returns plain mappings. -/
def loadSpecEntities (fs : FilesR) : Option (PAttempts × PPuzzles × PTeams) :=
  match fs.attemptsFile with
  | FileSt.holds sa =>
    match optMapM (fun pr =>
        (optMapM (fun tr => (SAttempt.parse tr.2).map fun a => (tr.1, PyObj.entity a)) pr.2).map
          fun row => (pr.1, row)) sa with
    | some a =>
      match fs.puzzlesFile with
      | FileSt.holds ps =>
        match fs.teamsFile with
        | FileSt.holds ts => some (a, entityRoster ps, entityRoster ts)
        | _ => none
      | _ => none
    | none => none
  | _ => none

/-- A trace in which every confirmation is preceded by a persist, the order
the spec's handler template prescribes. -/
def persistBeforeConfirms (evs : List Event) : Prop :=
  ∀ (i : Nat) (m : String), evs[i]? = some (Event.confirm m) →
    ∃ j : Nat, j < i ∧ evs[j]? = some Event.persist

/-- Validity of an optional timestamp. -/
def optTsValidB : Option DT → Bool
| none => true
| some d => d.validB

/-- Validity of a timer: both timestamps, when present, are `datetime`
values. -/
def timerValidB (t : AttemptTimer) : Bool :=
  optTsValidB t.start && optTsValidB t.end_

/-- Validity of an in-memory attempt matrix: all timers valid. -/
def attemptsValidB (a : Attempts) : Bool :=
  a.all fun pr => pr.2.all fun tr => timerValidB tr.2.timer

/-- Concrete fixture: an organizer caller (id 1). -/
def orgMember : MemberM := ⟨1, []⟩

/-- Concrete fixture: a player caller (id 7, no roles). -/
def playMember : MemberM := ⟨7, []⟩

/-- Concrete fixture: the bot configuration with owner id 1. -/
def botW : BotCfg := ⟨[1]⟩

/-- Concrete fixture: the player invoking from channel 100 in guild 500. -/
def ctxPlay : Ctx := ⟨playMember, 100, 500⟩

/-- Concrete fixture: the organizer invoking from channel 100 in guild 500. -/
def ctxOrg : Ctx := ⟨orgMember, 100, 500⟩

/-- Concrete fixture: a team containing player 7, channel 100. -/
def teamAlpha : Team := ⟨"alpha", [7], [100], []⟩

/-- Concrete fixture: a puzzle. -/
def pzOne : Puzzle := ⟨"p1", "Puzzle One", "logic", 10, "http://example/p1"⟩

/-- Concrete fixture: a timestamp. -/
def dtA : DT := ⟨2024, 3, 5, 10, 0, 0, 0⟩

/-- Concrete fixture: a later timestamp. -/
def dtB : DT := ⟨2024, 3, 5, 11, 30, 0, 0⟩

/-- Concrete fixture: a `not started` attempt of alpha on p1. -/
def attNS : Attempt := ⟨"p1", "alpha", AttemptState.notStarted, freshTimer, none⟩

/-- Concrete fixture: an `in progress` attempt of alpha on p1, started at `dtA`. -/
def attIP : Attempt := ⟨"p1", "alpha", AttemptState.inProgress, ⟨some dtA, none, none⟩, none⟩

/-- Concrete fixture: the singleton attempt matrix holding `attNS`. -/
def attemptsNS : Attempts := [("p1", [("alpha", attNS)])]

/-- Concrete fixture: the singleton attempt matrix holding `attIP`. -/
def attemptsIP : Attempts := [("p1", [("alpha", attIP)])]

/-- Concrete fixture: the puzzles collection with `pzOne`. -/
def puzzlesW : Puzzles := [("p1", pzOne)]

/-- Concrete fixture: the teams collection with `teamAlpha`. -/
def teamsW : Teams := [("alpha", teamAlpha)]

/-- Concrete fixture: a second team with no members, channel 200. -/
def teamBeta : Team := ⟨"beta", [], [200], []⟩

/-- Concrete fixture: a two-team collection, player 7 on alpha only. -/
def teamsC6 : Teams := [("alpha", teamAlpha), ("beta", teamBeta)]

/-- Concrete fixture: a player on no team (id 9). -/
def playerNine : MemberM := ⟨9, []⟩

/-- Concrete fixture: an `initialize` puzzle upload with one puzzle. -/
def puUpW : List (String × PuzzleUp) := [("p1", ⟨"Puzzle One", "logic", 10, "http://example/p1"⟩)]

/-- Concrete fixture: an `initialize` team upload with one team. -/
def tuUpW : List (String × TeamUp) := [("alpha", ⟨[7], [100], none⟩)]

/-- Concrete fixture: persisted state holding `attemptsNS` (runtime files). -/
def fsNSR : FilesR :=
  ⟨FileSt.holds (dumpAttempts attemptsNS), FileSt.holds puzzlesW, FileSt.holds teamsW⟩

/-- Concrete fixture: persisted state holding `attemptsIP` (runtime files). -/
def fsIPR : FilesR :=
  ⟨FileSt.holds (dumpAttempts attemptsIP), FileSt.holds puzzlesW, FileSt.holds teamsW⟩

/-- Concrete fixture: persisted state with the two-team collection. -/
def fsC6R : FilesR :=
  ⟨FileSt.holds (dumpAttempts attemptsNS), FileSt.holds puzzlesW, FileSt.holds teamsC6⟩

theorem digitChar_isDigit {n : Nat} (h : n < 10) : (Nat.digitChar n).isDigit = true := by
  interval_cases n <;> decide

theorem digitChar_toNat {n : Nat} (h : n < 10) : (Nat.digitChar n).toNat = 48 + n := by
  interval_cases n <;> decide

theorem digit2_digitChar {a b : Nat} (ha : a < 10) (hb : b < 10) :
    digit2 (Nat.digitChar a) (Nat.digitChar b) = some (a * 10 + b) := by
  unfold digit2
  rw [digitChar_isDigit ha, digitChar_isDigit hb, digitChar_toNat ha, digitChar_toNat hb]
  simp

theorem dtParse_dtStr {d : DT} (h : d.validB = true) : dtParse (dtStr d) = some d := by
  obtain ⟨year, month, day, hour, minute, second, usec⟩ := d
  simp only [DT.validB, Bool.and_eq_true, decide_eq_true_eq] at h
  obtain ⟨⟨⟨⟨⟨⟨⟨⟨⟨hy1, hy2⟩, hm1⟩, hm2⟩, hd1⟩, hd2⟩, hh⟩, hmi⟩, hs⟩, hu⟩ := h
  have hsep : sepOk '-' '-' ' ' ':' ':' = true := by decide
  show dtParseChars (dtChars ⟨year, month, day, hour, minute, second, usec⟩) = _
  simp only [dtChars, pad4, pad2, pad6, List.cons_append, List.nil_append]
  by_cases hu0 : usec = 0
  · subst hu0
    rw [if_pos rfl]
    rw [dtParseChars, hsep, if_pos rfl,
        digit2_digitChar (by omega) (by omega), digit2_digitChar (by omega) (by omega),
        digit2_digitChar (by omega) (by omega), digit2_digitChar (by omega) (by omega),
        digit2_digitChar (by omega) (by omega), digit2_digitChar (by omega) (by omega),
        digit2_digitChar (by omega) (by omega)]
    rw [parseUsec]
    simp only [Option.some_bind, Option.map_some', Option.some.injEq, DT.mk.injEq]
    exact ⟨by omega, by omega, by omega, by omega, by omega, by omega, trivial⟩
  · rw [if_neg hu0]
    rw [dtParseChars, hsep, if_pos rfl,
        digit2_digitChar (by omega) (by omega), digit2_digitChar (by omega) (by omega),
        digit2_digitChar (by omega) (by omega), digit2_digitChar (by omega) (by omega),
        digit2_digitChar (by omega) (by omega), digit2_digitChar (by omega) (by omega),
        digit2_digitChar (by omega) (by omega)]
    rw [parseUsec, if_pos rfl,
        digit2_digitChar (by omega) (by omega), digit2_digitChar (by omega) (by omega),
        digit2_digitChar (by omega) (by omega)]
    simp only [Option.some_bind, Option.map_some', Option.some.injEq, DT.mk.injEq]
    exact ⟨by omega, by omega, by omega, by omega, by omega, by omega, by omega⟩

example : dtStr ⟨2024, 3, 5, 7, 8, 9, 0⟩ = "2024-03-05 07:08:09" := by decide
example : dtStr ⟨2024, 3, 5, 7, 8, 9, 120⟩ = "2024-03-05 07:08:09.000120" := by decide
example : dtParse "2024-03-05 07:08:09" = some ⟨2024, 3, 5, 7, 8, 9, 0⟩ := by decide
example : dtParse "2024-03-05T07:08:09" = some ⟨2024, 3, 5, 7, 8, 9, 0⟩ := by decide

theorem alistGet_alistSet_self {κ α : Type} [DecidableEq κ] (m : List (κ × α)) (k : κ) (v : α) :
    alistGet (alistSet m k v) k = some v := by
  induction m with
  | nil => simp [alistSet, alistGet]
  | cons kv rest ih =>
    obtain ⟨k', v'⟩ := kv
    by_cases h : k' = k
    · subst h
      simp [alistSet, alistGet]
    · simp [alistSet, alistGet, h, ih]

theorem alistGet2_alistSet2_self {κ α : Type} [DecidableEq κ]
    (m : List (κ × List (κ × α))) (k1 k2 : κ) (v : α) (row : List (κ × α))
    (h : alistGet m k1 = some row) :
    alistGet2 (alistSet2 m k1 k2 v) k1 k2 = some v := by
  revert h
  induction m with
  | nil => intro h; simp [alistGet] at h
  | cons kv rest ih =>
    intro h
    obtain ⟨k', r⟩ := kv
    by_cases hk : k' = k1
    · subst hk
      simp [alistSet2, alistModify, alistGet2, alistGet, alistGet_alistSet_self]
    · simp only [alistGet, if_neg hk] at h
      have := ih h
      simp only [alistSet2, alistModify, if_neg hk, alistGet2, alistGet] at this ⊢
      simpa [hk] using this

theorem alistGet_map_key {α β : Type} (l : List (String × β)) (f : String → α) (k : String) :
    alistGet (l.map fun pr => (pr.1, f pr.1)) k =
      if k ∈ l.map Prod.fst then some (f k) else none := by
  induction l with
  | nil => simp [alistGet]
  | cons pr rest ih =>
    by_cases h : pr.1 = k
    · subst h
      simp [alistGet]
    · simp only [List.map_cons, alistGet, if_neg h, ih]
      by_cases hk : k ∈ List.map Prod.fst rest
      · rw [if_pos hk, if_pos (List.mem_cons_of_mem _ hk)]
      · rw [if_neg hk, if_neg fun hc => (List.mem_cons.mp hc).elim (fun h1 => h h1.symm) hk]

theorem parseOptTs_dump (o : Option DT) (h : optTsValidB o = true) :
    parseOptTs (o.map dtStr) = some o := by
  cases o with
  | none => rfl
  | some d =>
    simp only [optTsValidB] at h
    simp [parseOptTs, dtParse_dtStr h]

theorem timer_parse_dump (t : AttemptTimer) (h : timerValidB t = true) :
    t.dump.parse = some t := by
  obtain ⟨s, e, d⟩ := t
  simp only [timerValidB, Bool.and_eq_true] at h
  simp [AttemptTimer.dump, SAttemptTimer.parse, parseOptTs_dump _ h.1, parseOptTs_dump _ h.2]

theorem attempt_parse_dump (a : Attempt) (h : timerValidB a.timer = true) :
    a.dump.parse = some a := by
  simp [Attempt.dump, SAttempt.parse, timer_parse_dump _ h]

/-- Claim C7: on a successful `submit`, the duration is exactly
`str(end - start)` where `end` is the submit-time stamp — computed at that
call — and on every reload the stored duration string is returned verbatim,
never recomputed (both when parsing a persisted timer and when serialising it
again). -/
theorem c7_duration_computed_once :
    (∀ (a : Attempt) (link : String) (now st : DT), a.timer.start = some st →
      a.submit link now = some { a with
        state := AttemptState.submitted,
        timer := { a.timer with
          end_ := some now,
          duration := some (tdStr ((now.toUsec : Int) - (st.toUsec : Int))) },
        link := some link }) ∧
    (∀ (t : SAttemptTimer) (t2 : AttemptTimer), t.parse = some t2 →
      t2.duration = t.duration ∧ t2.dump.duration = t.duration) := by
  constructor
  · intro a link now st h
    simp [Attempt.submit, AttemptTimer.submit, h, durDiff]
  · intro t t2 h
    simp only [SAttemptTimer.parse] at h
    rcases hs : parseOptTs t.start with _ | s
    · rw [hs] at h
      simp at h
    · rw [hs] at h
      rcases he : parseOptTs t.end_ with _ | e
      · rw [he] at h
        simp at h
      · rw [he] at h
        simp only [Option.some_bind, Option.map_some', Option.some.injEq] at h
        subst h
        exact ⟨rfl, rfl⟩

/-- Witness for C7 at a concrete in-progress attempt. -/
theorem c7_witness :
    attIP.submit "L" dtB = some { attIP with
      state := AttemptState.submitted,
      timer := { attIP.timer with
        end_ := some dtB,
        duration := some (tdStr ((dtB.toUsec : Int) - (dtA.toUsec : Int))) },
      link := some "L" } :=
  c7_duration_computed_once.1 attIP "L" dtB dtA rfl

theorem matrix_get (pu : List (String × PuzzleUp)) (tu : List (String × TeamUp))
    (pk tk : String) :
    alistGet2 (dumpAttempts (mkMatrix (mkPuzzleDict pu) (mkTeamDict tu))) pk tk =
      if pk ∈ pu.map Prod.fst ∧ tk ∈ tu.map Prod.fst
      then some ⟨pk, tk, AttemptState.notStarted, ⟨none, none, none⟩, none⟩
      else none := by
  have h1 : dumpAttempts (mkMatrix (mkPuzzleDict pu) (mkTeamDict tu)) =
      pu.map fun pr => (pr.1, tu.map fun tr =>
        (tr.1, (⟨pr.1, tr.1, AttemptState.notStarted, ⟨none, none, none⟩, none⟩ : SAttempt))) := by
    simp [dumpAttempts, mkMatrix, mkPuzzleDict, mkTeamDict, List.map_map, Function.comp_def,
      Attempt.dump, AttemptTimer.dump, freshTimer]
  rw [h1]
  simp only [alistGet2]
  rw [alistGet_map_key pu
    (fun pk => tu.map fun tr =>
      (tr.1, (⟨pk, tr.1, AttemptState.notStarted, ⟨none, none, none⟩, none⟩ : SAttempt))) pk]
  by_cases hp : pk ∈ pu.map Prod.fst
  · rw [if_pos hp]
    simp only [Option.some_bind]
    rw [alistGet_map_key tu
      (fun tk => (⟨pk, tk, AttemptState.notStarted, ⟨none, none, none⟩, none⟩ : SAttempt)) tk]
    by_cases ht : tk ∈ tu.map Prod.fst
    · rw [if_pos ht, if_pos ⟨hp, ht⟩]
    · rw [if_neg ht, if_neg fun hc => ht hc.2]
  · rw [if_neg hp]
    simp only [Option.none_bind]
    rw [if_neg fun hc => hp hc.1]

/-- Claim C5: `find_team` walks the team collection in order and returns the
first team the caller matches, where matching is the disjunction of the role
clause (checked first) and the direct-membership clause (checked second); and
when the first role-matching team and the first member-matching team coincide,
that same team is returned — the result does not depend on which clause
produced the match. -/
theorem c5_find_team_first_match :
    (∀ (member : MemberM) (teams : Teams),
      find_team member teams =
        (teams.find? fun x => roleMatches member x.2 || memberMatches member x.2).map
          Prod.snd) ∧
    (∀ (member : MemberM) (teams : Teams) (kt : String × Team),
      teams.find? (fun x => roleMatches member x.2) = some kt →
      teams.find? (fun x => memberMatches member x.2) = some kt →
      find_team member teams = some kt.2) := by
  constructor
  · intro member teams
    induction teams with
    | nil => rfl
    | cons a rest ih =>
      obtain ⟨k, t⟩ := a
      by_cases hr : roleMatches member t
      · simp [find_team, List.find?_cons, hr]
      · by_cases hm : memberMatches member t
        · simp [find_team, List.find?_cons, hr, hm]
        · simp [find_team, List.find?_cons, hr, hm, ih]
  · intro member teams
    induction teams with
    | nil =>
      intro kt h1 _
      simp at h1
    | cons a rest ih =>
      intro kt h1 h2
      obtain ⟨k, t⟩ := a
      by_cases hr : roleMatches member t
      · rw [show List.find? (fun x => roleMatches member x.2) ((k, t) :: rest) = some (k, t)
            from List.find?_cons_of_pos _ hr] at h1
        cases h1
        simp [find_team, hr]
      · rw [show List.find? (fun x => roleMatches member x.2) ((k, t) :: rest) =
              List.find? (fun x => roleMatches member x.2) rest
            from List.find?_cons_of_neg _ hr] at h1
        by_cases hm : memberMatches member t
        · rw [show List.find? (fun x => memberMatches member x.2) ((k, t) :: rest) = some (k, t)
              from List.find?_cons_of_pos _ hm] at h2
          cases h2
          simp [find_team, hr, hm]
        · rw [show List.find? (fun x => memberMatches member x.2) ((k, t) :: rest) =
                List.find? (fun x => memberMatches member x.2) rest
              from List.find?_cons_of_neg _ hm] at h2
          simp only [find_team, hr, hm, if_false, Bool.false_eq_true, if_neg]
          exact ih kt h1 h2

/-- Witness for C5 (second part) at a concrete caller matching one team by
both role grant and direct membership. -/
theorem c5_witness :
    find_team ⟨7, [44]⟩ [("alpha", ⟨"alpha", [7], [100], [(500, 44)]⟩)] =
      some ⟨"alpha", [7], [100], [(500, 44)]⟩ :=
  c5_find_team_first_match.2 ⟨7, [44]⟩ [("alpha", ⟨"alpha", [7], [100], [(500, 44)]⟩)]
    ("alpha", ⟨"alpha", [7], [100], [(500, 44)]⟩) (by decide) (by decide)

theorem rowR_parse_dump (row : List (String × Attempt))
    (h : (row.all fun tr => timerValidB tr.2.timer) = true) :
    optMapM (fun tr => (SAttempt.parse tr.2).map fun a => (tr.1, PyObj.plain a))
        (row.map fun tr => (tr.1, tr.2.dump)) =
      some (row.map fun tr => (tr.1, PyObj.plain tr.2)) := by
  induction row with
  | nil => rfl
  | cons tr rest ih =>
    simp only [List.all_cons, Bool.and_eq_true] at h
    simp only [List.map_cons, optMapM, attempt_parse_dump tr.2 h.1, ih h.2,
      Option.some_bind, Option.map_some']

theorem parseAttemptsR_dump (a : Attempts) (h : attemptsValidB a = true) :
    parseAttemptsR (dumpAttempts a) = some (plainAttempts a) := by
  induction a with
  | nil => rfl
  | cons pr rest ih =>
    simp only [attemptsValidB, List.all_cons, Bool.and_eq_true] at h
    have hrest : attemptsValidB rest = true := h.2
    simp only [parseAttemptsR, dumpAttempts, plainAttempts, List.map_cons, optMapM,
      rowR_parse_dump pr.2 h.1, Option.map_some', Option.some_bind]
    have ih2 := ih hrest
    simp only [parseAttemptsR, dumpAttempts, plainAttempts] at ih2
    simp only [ih2, Option.map_some']

theorem stripAttempts_plainAttempts (a : Attempts) : stripAttempts (plainAttempts a) = a := by
  simp [stripAttempts, plainAttempts, List.map_map, Function.comp_def, PyObj.val]

theorem stripRoster_plainRoster {α : Type} (l : List (String × α)) :
    stripRoster (plainRoster l) = l := by
  simp [stripRoster, plainRoster, List.map_map, Function.comp_def, PyObj.val]

theorem rosterHasEntity_plainRoster {α : Type} (l : List (String × α)) :
    rosterHasEntity (plainRoster l) = false := by
  induction l with
  | nil => rfl
  | cons x r ih => simpa [rosterHasEntity, plainRoster, PyObj.isEntity] using ih

theorem attemptsHasEntity_plainAttempts (a : Attempts) :
    attemptsHasEntity (plainAttempts a) = false := by
  induction a with
  | nil => rfl
  | cons pr rest ih =>
    have h1 : rosterHasEntity (plainRoster pr.2) = false := rosterHasEntity_plainRoster pr.2
    simp only [rosterHasEntity, plainRoster] at h1
    simp only [attemptsHasEntity, plainAttempts, List.map_cons, List.any_cons, h1,
      Bool.false_or]
    simpa [attemptsHasEntity, plainAttempts] using ih

theorem loadR_inv (fs : FilesR) (a : PAttempts) (ps : PPuzzles) (ts : PTeams)
    (h : loadR fs = some (a, ps, ts)) :
    ∃ ps0 ts0, ps = plainRoster ps0 ∧ ts = plainRoster ts0 := by
  obtain ⟨fa, fp, ft⟩ := fs
  cases fa with
  | absent => simp [loadR] at h
  | truncated => simp [loadR] at h
  | holds sa =>
    simp only [loadR] at h
    rcases hpa : parseAttemptsR sa with _ | a0 <;> rw [hpa] at h
    · simp at h
    · cases fp with
      | absent => simp at h
      | truncated => simp at h
      | holds ps0 =>
        cases ft with
        | absent => simp at h
        | truncated => simp at h
        | holds ts0 =>
          simp only [Option.some.injEq, Prod.mk.injEq] at h
          exact ⟨ps0, ts0, h.2.1.symm, h.2.2.symm⟩

theorem find_teamR_plainRoster (m : MemberM) (l : Teams) (h : l ≠ []) :
    find_teamR m (plainRoster l) = Except.error PyExn.attributeError := by
  cases l with
  | nil => exact absurd rfl h
  | cons kt rest => rfl

theorem matrix_getM (pu : List (String × PuzzleUp)) (tu : List (String × TeamUp))
    (pk tk : String) :
    alistGet2 (mkMatrix (mkPuzzleDict pu) (mkTeamDict tu)) pk tk =
      if pk ∈ pu.map Prod.fst ∧ tk ∈ tu.map Prod.fst
      then some ⟨pk, tk, AttemptState.notStarted, freshTimer, none⟩
      else none := by
  have h1 : mkMatrix (mkPuzzleDict pu) (mkTeamDict tu) =
      pu.map fun pr => (pr.1, tu.map fun tr =>
        (tr.1, (⟨pr.1, tr.1, AttemptState.notStarted, freshTimer, none⟩ : Attempt))) := by
    simp [mkMatrix, mkPuzzleDict, mkTeamDict, List.map_map, Function.comp_def]
  rw [h1]
  simp only [alistGet2]
  rw [alistGet_map_key pu
    (fun pk => tu.map fun tr =>
      (tr.1, (⟨pk, tr.1, AttemptState.notStarted, freshTimer, none⟩ : Attempt))) pk]
  by_cases hp : pk ∈ pu.map Prod.fst
  · rw [if_pos hp]
    simp only [Option.some_bind]
    rw [alistGet_map_key tu
      (fun tk => (⟨pk, tk, AttemptState.notStarted, freshTimer, none⟩ : Attempt)) tk]
    by_cases ht : tk ∈ tu.map Prod.fst
    · rw [if_pos ht, if_pos ⟨hp, ht⟩]
    · rw [if_neg ht, if_neg fun hc => ht hc.2]
  · rw [if_neg hp]
    simp only [Option.none_bind]
    rw [if_neg fun hc => hp hc.1]

theorem attemptsHasEntity_entity_matrix (pu : List (String × PuzzleUp))
    (tu : List (String × TeamUp)) (hpu : pu ≠ []) (htu : tu ≠ []) :
    attemptsHasEntity (entityAttempts (mkMatrix (mkPuzzleDict pu) (mkTeamDict tu))) = true := by
  cases pu with
  | nil => exact absurd rfl hpu
  | cons p ps =>
    cases tu with
    | nil => exact absurd rfl htu
    | cons t ts =>
      simp [attemptsHasEntity, entityAttempts, mkMatrix, mkPuzzleDict, mkTeamDict,
        PyObj.isEntity]

theorem storeR_none_puzzlesFile (fs : FilesR) (attempts : PAttempts)
    (teams : Option PTeams) :
    (storeR fs attempts none teams).1.puzzlesFile = fs.puzzlesFile := by
  unfold storeR storePuzzlesR storeTeamsR
  split
  · rfl
  · cases teams with
    | none => rfl
    | some ts =>
      dsimp only
      split
      · rfl
      · split <;> rfl

theorem storeR_plain (fs : FilesR) (a : Attempts) (ps : Puzzles) (ts : Teams)
    (hps : ps ≠ []) (hts : ts ≠ []) :
    storeR fs (plainAttempts a) (some (plainRoster ps)) (some (plainRoster ts)) =
      (⟨FileSt.holds (dumpAttempts a), FileSt.holds ps, FileSt.holds ts⟩, none) := by
  unfold storeR
  rw [attemptsHasEntity_plainAttempts]
  simp only [Bool.false_eq_true, if_false]
  rw [stripAttempts_plainAttempts]
  unfold storePuzzlesR
  dsimp only
  have hpsE : (plainRoster ps).isEmpty = false := by
    cases ps with
    | nil => exact absurd rfl hps
    | cons x r => rfl
  have htsE : (plainRoster ts).isEmpty = false := by
    cases ts with
    | nil => exact absurd rfl hts
    | cons x r => rfl
  rw [hpsE]
  simp only [Bool.false_eq_true, if_false]
  rw [rosterHasEntity_plainRoster]
  simp only [Bool.false_eq_true, if_false]
  rw [stripRoster_plainRoster]
  unfold storeTeamsR
  dsimp only
  rw [htsE]
  simp only [Bool.false_eq_true, if_false]
  rw [rosterHasEntity_plainRoster]
  simp only [Bool.false_eq_true, if_false]
  rw [stripRoster_plainRoster]

theorem initializeR_nonempty (bot : BotCfg) (ctx : Ctx) (pu : List (String × PuzzleUp))
    (tu : List (String × TeamUp)) (fs : FilesR) (hown : ctx.user.id ∈ bot.ownerIds)
    (hpu : pu ≠ []) (htu : tu ≠ []) :
    Marathon.initializeR bot ctx (some pu) (some tu) fs =
      ⟨[Event.confirm ("Initialized " ++ toString pu.length ++ " puzzles for " ++
          toString tu.length ++ " teams.")],
       { fs with attemptsFile := FileSt.truncated }, some PyExn.representerError⟩ := by
  unfold Marathon.initializeR
  rw [if_pos hown]
  dsimp only
  unfold storeR
  rw [attemptsHasEntity_entity_matrix pu tu hpu htu]
  simp only [if_true]
  simp only [mkPuzzleDict, mkTeamDict, List.length_map]

theorem initializeR_empty (bot : BotCfg) (ctx : Ctx) (fs : FilesR)
    (hown : ctx.user.id ∈ bot.ownerIds) :
    Marathon.initializeR bot ctx (some []) (some []) fs =
      ⟨[Event.confirm "Initialized 0 puzzles for 0 teams.", Event.persist],
       { fs with attemptsFile := FileSt.holds [] }, none⟩ := by
  unfold Marathon.initializeR
  rw [if_pos hown]
  rfl

/-- Claim C1: the matrix `initialize` builds in memory is indeed dense — an
entry exists at (P, T) exactly for a parsed puzzle P and a parsed team T, and
every entry is a fresh `not started` attempt — but the persistence half of the
claim fails in the code: for an organizer caller with non-empty uploads the
handler sends its report and then `store` raises RepresenterError on the first
entity collection (the attempts), truncating attempts.yaml, so NO collection
is persisted and the prior state is destroyed rather than replaced. -/
theorem c1_initialize_fails_to_persist (bot : BotCfg) (ctx : Ctx)
    (pu : List (String × PuzzleUp)) (tu : List (String × TeamUp)) (fs : FilesR)
    (hown : ctx.user.id ∈ bot.ownerIds) (hpu : pu ≠ []) (htu : tu ≠ []) :
    (∀ pk tk : String,
      alistGet2 (mkMatrix (mkPuzzleDict pu) (mkTeamDict tu)) pk tk =
          some ⟨pk, tk, AttemptState.notStarted, freshTimer, none⟩ ↔
        pk ∈ pu.map Prod.fst ∧ tk ∈ tu.map Prod.fst) ∧
    Marathon.initializeR bot ctx (some pu) (some tu) fs =
      ⟨[Event.confirm ("Initialized " ++ toString pu.length ++ " puzzles for " ++
          toString tu.length ++ " teams.")],
       { fs with attemptsFile := FileSt.truncated }, some PyExn.representerError⟩ := by
  constructor
  · intro pk tk
    rw [matrix_getM]
    by_cases h : pk ∈ pu.map Prod.fst ∧ tk ∈ tu.map Prod.fst
    · rw [if_pos h]
      exact iff_of_true rfl h
    · rw [if_neg h]
      exact iff_of_false (fun hx => Option.noConfusion hx) h
  · exact initializeR_nonempty bot ctx pu tu fs hown hpu htu

/-- Witness for C1 at the concrete one-puzzle, one-team upload. -/
theorem c1_witness :
    ctxOrg.user.id ∈ botW.ownerIds ∧ puUpW ≠ [] ∧ tuUpW ≠ [] ∧
    ((∀ pk tk : String,
      alistGet2 (mkMatrix (mkPuzzleDict puUpW) (mkTeamDict tuUpW)) pk tk =
          some ⟨pk, tk, AttemptState.notStarted, freshTimer, none⟩ ↔
        pk ∈ puUpW.map Prod.fst ∧ tk ∈ tuUpW.map Prod.fst) ∧
    Marathon.initializeR botW ctxOrg (some puUpW) (some tuUpW) fsC6R =
      ⟨[Event.confirm ("Initialized " ++ toString puUpW.length ++ " puzzles for " ++
          toString tuUpW.length ++ " teams.")],
       { fsC6R with attemptsFile := FileSt.truncated }, some PyExn.representerError⟩) :=
  ⟨by decide, by decide, by decide,
   c1_initialize_fails_to_persist botW ctxOrg puUpW tuUpW fsC6R (by decide) (by decide)
     (by decide)⟩

/-- Claim C2: the entity method `Attempt.unlock` does set state to
`in progress` and `timer.start = now`, but the handler can never legally reach
it: `load` returns plain dicts, so for ANY caller, with any non-empty teams
collection on disk, `unlock` raises AttributeError inside `find_team` (reading
`team.role` on a plain dict) before the state guard, the denial, or any
transition — it neither denies as specified nor mutates anything. -/
theorem c2_unlock_crashes_before_guard (ctx : Ctx) (puzzle : String) (now : DT)
    (fs : FilesR) (attempts : PAttempts) (puzzles : PPuzzles) (teams : PTeams)
    (hload : loadR fs = some (attempts, puzzles, teams)) (hne : teams ≠ []) :
    Marathon.unlockR ctx puzzle now fs = ⟨[Event.loadEv], fs, some PyExn.attributeError⟩ ∧
    (∀ (a : Attempt) (now2 : DT),
      (a.unlock now2).state = AttemptState.inProgress ∧
      (a.unlock now2).timer.start = some now2) := by
  constructor
  · obtain ⟨ts0, hts⟩ : ∃ ts0, teams = plainRoster ts0 := by
      obtain ⟨ps0, ts0, _, h2⟩ := loadR_inv fs attempts puzzles teams hload
      exact ⟨ts0, h2⟩
    have hts0 : ts0 ≠ [] := by
      intro hc
      rw [hc] at hts
      exact hne (by rw [hts]; rfl)
    unfold Marathon.unlockR
    rw [hload]
    dsimp only
    rw [hts, find_teamR_plainRoster ctx.user ts0 hts0]
  · intro a now2
    exact ⟨rfl, rfl⟩

/-- Witness for C2 at the populated concrete files. -/
theorem c2_witness :
    loadR fsNSR = some (plainAttempts attemptsNS, plainRoster puzzlesW, plainRoster teamsW) ∧
    plainRoster teamsW ≠ [] ∧
    (Marathon.unlockR ctxPlay "p1" dtB fsNSR =
       ⟨[Event.loadEv], fsNSR, some PyExn.attributeError⟩ ∧
     ∀ (a : Attempt) (now2 : DT),
       (a.unlock now2).state = AttemptState.inProgress ∧
       (a.unlock now2).timer.start = some now2) :=
  ⟨rfl, by decide,
   c2_unlock_crashes_before_guard ctxPlay "p1" dtB fsNSR (plainAttempts attemptsNS)
     (plainRoster puzzlesW) (plainRoster teamsW) rfl (by decide)⟩

/-- Claim C3: the entity method `Attempt.submit` does set state to
`submitted`, stamp `timer.end`, freeze the duration and record the link, but
the handler can never legally reach it: `load` returns plain dicts, so for ANY
caller, with any non-empty teams collection on disk, `submit` raises
AttributeError inside `find_team` before the state guard, the denial, or any
mutation. -/
theorem c3_submit_crashes_before_guard (ctx : Ctx) (puzzle link : String) (now : DT)
    (fs : FilesR) (attempts : PAttempts) (puzzles : PPuzzles) (teams : PTeams)
    (hload : loadR fs = some (attempts, puzzles, teams)) (hne : teams ≠ []) :
    Marathon.submitR ctx puzzle link now fs =
      ⟨[Event.loadEv], fs, some PyExn.attributeError⟩ ∧
    (∀ (a : Attempt) (link2 : String) (now2 st : DT), a.timer.start = some st →
      a.submit link2 now2 = some { a with
        state := AttemptState.submitted,
        timer := { a.timer with end_ := some now2, duration := some (durDiff now2 st) },
        link := some link2 }) := by
  constructor
  · obtain ⟨ts0, hts⟩ : ∃ ts0, teams = plainRoster ts0 := by
      obtain ⟨ps0, ts0, _, h2⟩ := loadR_inv fs attempts puzzles teams hload
      exact ⟨ts0, h2⟩
    have hts0 : ts0 ≠ [] := by
      intro hc
      rw [hc] at hts
      exact hne (by rw [hts]; rfl)
    unfold Marathon.submitR
    rw [hload]
    dsimp only
    rw [hts, find_teamR_plainRoster ctx.user ts0 hts0]
  · intro a link2 now2 st hst
    simp [Attempt.submit, AttemptTimer.submit, hst]

/-- Witness for C3 at the populated concrete files. -/
theorem c3_witness :
    loadR fsIPR = some (plainAttempts attemptsIP, plainRoster puzzlesW, plainRoster teamsW) ∧
    plainRoster teamsW ≠ [] ∧
    (Marathon.submitR ctxPlay "p1" "L" dtB fsIPR =
       ⟨[Event.loadEv], fsIPR, some PyExn.attributeError⟩ ∧
     ∀ (a : Attempt) (link2 : String) (now2 st : DT), a.timer.start = some st →
       a.submit link2 now2 = some { a with
         state := AttemptState.submitted,
         timer := { a.timer with end_ := some now2, duration := some (durDiff now2 st) },
         link := some link2 }) :=
  ⟨rfl, by decide,
   c3_submit_crashes_before_guard ctxPlay "p1" "L" dtB fsIPR (plainAttempts attemptsIP)
     (plainRoster puzzlesW) (plainRoster teamsW) rfl (by decide)⟩

/-- Counterexample to C4 as stated: the source `load` performs no entity
construction — on a concrete persisted state it returns the PLAIN mappings,
not the entity-building load the spec describes (`loadSpecEntities`), and the
difference is material: attribute access on the plain attempt raises
(AttributeError, `none`) where the entity attempt yields its state. -/
theorem c4_load_no_entities :
    loadR fsIPR =
      some (plainAttempts attemptsIP, plainRoster puzzlesW, plainRoster teamsW) ∧
    loadSpecEntities fsIPR =
      some (entityAttempts attemptsIP, entityRoster puzzlesW, entityRoster teamsW) ∧
    (PyObj.plain attIP).getattr Attempt.state = none ∧
    (PyObj.entity attIP).getattr Attempt.state = some AttemptState.inProgress ∧
    PyObj.plain attIP ≠ PyObj.entity attIP :=
  ⟨rfl, rfl, rfl, rfl, fun h => PyObj.noConfusion h⟩

/-- Claim C4 (amended): the round-trip law holds at the level of raw file
content: loading a persisted state (valid timestamps, non-empty roster
collections) yields the raw mappings with plain values, and storing exactly
those loaded values writes back identical file content, including the
timestamp text (datetimes render back to the same `isoformat` string) — but
the loaded values are plain dicts, not entities, and the store succeeds only
because nothing upgraded them to entities. -/
theorem c4_raw_roundtrip (a : Attempts) (ps : Puzzles) (ts : Teams)
    (hval : attemptsValidB a = true) (hps : ps ≠ []) (hts : ts ≠ []) :
    loadR ⟨FileSt.holds (dumpAttempts a), FileSt.holds ps, FileSt.holds ts⟩ =
      some (plainAttempts a, plainRoster ps, plainRoster ts) ∧
    storeR ⟨FileSt.holds (dumpAttempts a), FileSt.holds ps, FileSt.holds ts⟩
        (plainAttempts a) (some (plainRoster ps)) (some (plainRoster ts)) =
      (⟨FileSt.holds (dumpAttempts a), FileSt.holds ps, FileSt.holds ts⟩, none) := by
  constructor
  · simp only [loadR, parseAttemptsR_dump a hval]
  · exact storeR_plain _ a ps ts hps hts

/-- Witness for C4 at the concrete in-progress state (whose timer carries a
real timestamp, exercising the formatting round-trip). -/
theorem c4_witness :
    attemptsValidB attemptsIP = true ∧ puzzlesW ≠ [] ∧ teamsW ≠ [] ∧
    (loadR ⟨FileSt.holds (dumpAttempts attemptsIP), FileSt.holds puzzlesW,
        FileSt.holds teamsW⟩ =
      some (plainAttempts attemptsIP, plainRoster puzzlesW, plainRoster teamsW) ∧
    storeR ⟨FileSt.holds (dumpAttempts attemptsIP), FileSt.holds puzzlesW,
        FileSt.holds teamsW⟩
        (plainAttempts attemptsIP) (some (plainRoster puzzlesW))
        (some (plainRoster teamsW)) =
      (⟨FileSt.holds (dumpAttempts attemptsIP), FileSt.holds puzzlesW,
        FileSt.holds teamsW⟩, none)) :=
  ⟨by decide, by decide, by decide,
   c4_raw_roundtrip attemptsIP puzzlesW teamsW (by decide) (by decide) (by decide)⟩

/-- Counterexample to C6: an organizer runs remove_player for player 7, who
IS on team alpha by the value-level matching rule (`find_team` would return
alpha) — but the handler raises AttributeError inside `find_team` on the
first plain-dict team, before any denial, any removal, or any store. -/
theorem c6_counterexample :
    Marathon.remove_playerR botW ctxOrg playMember "alpha" fsC6R =
      ⟨[Event.loadEv], fsC6R, some PyExn.attributeError⟩ ∧
    find_team playMember teamsC6 = some teamAlpha :=
  ⟨rfl, rfl⟩

/-- Claim C6 (amended): a non-organizer caller is denied with no change; for
an organizer, with ANY non-empty teams collection on disk both `add_player`
and `remove_player` raise AttributeError inside `find_team` (plain-dict
`team.role`) before any denial or mutation; only with an empty teams
collection do the specified denials occur — `remove_player` denies with
"is not on a team" and `add_player` passes its find_team check but dies with
KeyError at `teams[team].members` — so the specified add/remove mutations are
unreachable on every input. -/
theorem c6_player_commands_runtime (bot : BotCfg) (ctx : Ctx) (player : MemberM)
    (team : String) (fs : FilesR) (attempts : PAttempts) (puzzles : PPuzzles)
    (teams : PTeams) (hload : loadR fs = some (attempts, puzzles, teams)) :
    (ctx.user.id ∉ bot.ownerIds →
      Marathon.add_playerR bot ctx player team fs = ⟨[Event.deny ownerDeny], fs, none⟩ ∧
      Marathon.remove_playerR bot ctx player team fs =
        ⟨[Event.deny ownerDeny], fs, none⟩) ∧
    (ctx.user.id ∈ bot.ownerIds → teams ≠ [] →
      Marathon.add_playerR bot ctx player team fs =
        ⟨[Event.loadEv], fs, some PyExn.attributeError⟩ ∧
      Marathon.remove_playerR bot ctx player team fs =
        ⟨[Event.loadEv], fs, some PyExn.attributeError⟩) ∧
    (ctx.user.id ∈ bot.ownerIds → teams = [] →
      Marathon.remove_playerR bot ctx player team fs =
        ⟨[Event.loadEv, Event.deny (player.mention ++ " is not on a team.")], fs, none⟩ ∧
      Marathon.add_playerR bot ctx player team fs =
        ⟨[Event.loadEv], fs, some PyExn.keyError⟩) := by
  refine ⟨fun hown => ?_, fun hown hne => ?_, fun hown hte => ?_⟩
  · constructor
    · unfold Marathon.add_playerR
      rw [if_neg hown]
    · unfold Marathon.remove_playerR
      rw [if_neg hown]
  · obtain ⟨ts0, hts⟩ : ∃ ts0, teams = plainRoster ts0 := by
      obtain ⟨ps0, ts0, _, h2⟩ := loadR_inv fs attempts puzzles teams hload
      exact ⟨ts0, h2⟩
    have hts0 : ts0 ≠ [] := by
      intro hc
      rw [hc] at hts
      exact hne (by rw [hts]; rfl)
    constructor
    · unfold Marathon.add_playerR
      rw [if_pos hown, hload]
      dsimp only
      rw [hts, find_teamR_plainRoster player ts0 hts0]
    · unfold Marathon.remove_playerR
      rw [if_pos hown, hload]
      dsimp only
      rw [hts, find_teamR_plainRoster player ts0 hts0]
  · subst hte
    constructor
    · unfold Marathon.remove_playerR
      rw [if_pos hown, hload]
      rfl
    · unfold Marathon.add_playerR
      rw [if_pos hown, hload]
      rfl

/-- Witness for C6 at the concrete two-team state. -/
theorem c6_witness :
    loadR fsC6R =
      some (plainAttempts attemptsNS, plainRoster puzzlesW, plainRoster teamsC6) ∧
    ((ctxOrg.user.id ∉ botW.ownerIds →
      Marathon.add_playerR botW ctxOrg playerNine "beta" fsC6R =
        ⟨[Event.deny ownerDeny], fsC6R, none⟩ ∧
      Marathon.remove_playerR botW ctxOrg playerNine "beta" fsC6R =
        ⟨[Event.deny ownerDeny], fsC6R, none⟩) ∧
    (ctxOrg.user.id ∈ botW.ownerIds → plainRoster teamsC6 ≠ [] →
      Marathon.add_playerR botW ctxOrg playerNine "beta" fsC6R =
        ⟨[Event.loadEv], fsC6R, some PyExn.attributeError⟩ ∧
      Marathon.remove_playerR botW ctxOrg playerNine "beta" fsC6R =
        ⟨[Event.loadEv], fsC6R, some PyExn.attributeError⟩) ∧
    (ctxOrg.user.id ∈ botW.ownerIds → plainRoster teamsC6 = [] →
      Marathon.remove_playerR botW ctxOrg playerNine "beta" fsC6R =
        ⟨[Event.loadEv, Event.deny (playerNine.mention ++ " is not on a team.")],
         fsC6R, none⟩ ∧
      Marathon.add_playerR botW ctxOrg playerNine "beta" fsC6R =
        ⟨[Event.loadEv], fsC6R, some PyExn.keyError⟩)) :=
  ⟨rfl, c6_player_commands_runtime botW ctxOrg playerNine "beta" fsC6R
    (plainAttempts attemptsNS) (plainRoster puzzlesW) (plainRoster teamsC6) rfl⟩

/-- Counterexample to C8: a concrete organizer `initialize` with a one-puzzle,
one-team upload sends its success report and THEN dies in `store`
(RepresenterError on the entity attempts, truncating attempts.yaml) — the
trace contains a confirmation with no preceding persist, violating the
template's persist-before-confirm order. -/
theorem c8_counterexample :
    Marathon.initializeR botW ctxOrg (some puUpW) (some tuUpW) fsNSR =
      ⟨[Event.confirm "Initialized 1 puzzles for 1 teams."],
       { fsNSR with attemptsFile := FileSt.truncated }, some PyExn.representerError⟩ ∧
    ¬ persistBeforeConfirms [Event.confirm "Initialized 1 puzzles for 1 teams."] := by
  constructor
  · rfl
  · intro hp
    obtain ⟨j, hj, _⟩ := hp 0 "Initialized 1 puzzles for 1 teams." rfl
    omega

/-- Claim C8 (amended): the denial legs of the template hold — a non-organizer
is denied by the owner-gated handlers with no mutation, and with an empty
teams collection unlock/submit deny with no mutation — but the
mutate-persist-confirm tail does not: with non-empty uploads `initialize`
sends its confirmation and then fails to persist (RepresenterError after
truncating attempts.yaml); with a plain (loaded) named team the admin
handlers raise AttributeError before any store; and even the one run that
does complete a store, `initialize` on empty uploads, sends its confirmation
BEFORE the persist. -/
theorem c8_handler_template_runtime (bot : BotCfg) (ctx : Ctx) (team : String)
    (roleId : Int) (puzzle link : String) (now : DT) (fs : FilesR)
    (attempts : PAttempts) (puzzles : PPuzzles) (teams : PTeams)
    (pu : List (String × PuzzleUp)) (tu : List (String × TeamUp)) :
    (ctx.user.id ∉ bot.ownerIds →
      Marathon.initializeR bot ctx (some pu) (some tu) fs =
        ⟨[Event.deny ownerDeny], fs, none⟩ ∧
      Marathon.add_channelR bot ctx team fs = ⟨[Event.deny ownerDeny], fs, none⟩ ∧
      Marathon.remove_channelR bot ctx team fs = ⟨[Event.deny ownerDeny], fs, none⟩ ∧
      Marathon.set_roleR bot ctx team roleId fs = ⟨[Event.deny ownerDeny], fs, none⟩) ∧
    (loadR fs = some (attempts, puzzles, []) →
      Marathon.unlockR ctx puzzle now fs =
        ⟨[Event.loadEv, Event.deny teamDeny], fs, none⟩ ∧
      Marathon.submitR ctx puzzle link now fs =
        ⟨[Event.loadEv, Event.deny teamDeny], fs, none⟩) ∧
    (ctx.user.id ∈ bot.ownerIds → loadR fs = some (attempts, puzzles, teams) →
      (∃ t0, alistGet teams team = some (PyObj.plain t0)) →
      Marathon.add_channelR bot ctx team fs =
        ⟨[Event.loadEv], fs, some PyExn.attributeError⟩ ∧
      Marathon.remove_channelR bot ctx team fs =
        ⟨[Event.loadEv], fs, some PyExn.attributeError⟩ ∧
      Marathon.set_roleR bot ctx team roleId fs =
        ⟨[Event.loadEv], fs, some PyExn.attributeError⟩) ∧
    (ctx.user.id ∈ bot.ownerIds → pu ≠ [] → tu ≠ [] →
      Marathon.initializeR bot ctx (some pu) (some tu) fs =
        ⟨[Event.confirm ("Initialized " ++ toString pu.length ++ " puzzles for " ++
            toString tu.length ++ " teams.")],
         { fs with attemptsFile := FileSt.truncated }, some PyExn.representerError⟩ ∧
      ¬ persistBeforeConfirms
          [Event.confirm ("Initialized " ++ toString pu.length ++ " puzzles for " ++
            toString tu.length ++ " teams.")]) ∧
    (ctx.user.id ∈ bot.ownerIds →
      Marathon.initializeR bot ctx (some []) (some []) fs =
        ⟨[Event.confirm "Initialized 0 puzzles for 0 teams.", Event.persist],
         { fs with attemptsFile := FileSt.holds [] }, none⟩ ∧
      ¬ persistBeforeConfirms
          [Event.confirm "Initialized 0 puzzles for 0 teams.", Event.persist]) := by
  refine ⟨fun hown => ?_, fun hload => ?_, fun hown hload ht0 => ?_,
    fun hown hpu htu => ?_, fun hown => ?_⟩
  · refine ⟨?_, ?_, ?_, ?_⟩
    · unfold Marathon.initializeR
      rw [if_neg hown]
    · unfold Marathon.add_channelR
      rw [if_neg hown]
    · unfold Marathon.remove_channelR
      rw [if_neg hown]
    · unfold Marathon.set_roleR
      rw [if_neg hown]
  · constructor
    · unfold Marathon.unlockR
      rw [hload]
      rfl
    · unfold Marathon.submitR
      rw [hload]
      rfl
  · obtain ⟨t0, ht⟩ := ht0
    refine ⟨?_, ?_, ?_⟩
    · unfold Marathon.add_channelR
      rw [if_pos hown, hload]
      dsimp only
      rw [ht]
    · unfold Marathon.remove_channelR
      rw [if_pos hown, hload]
      dsimp only
      rw [ht]
    · unfold Marathon.set_roleR
      rw [if_pos hown, hload]
      dsimp only
      rw [ht]
  · refine ⟨initializeR_nonempty bot ctx pu tu fs hown hpu htu, ?_⟩
    intro hp
    obtain ⟨j, hj, _⟩ := hp 0 _ rfl
    omega
  · refine ⟨initializeR_empty bot ctx fs hown, ?_⟩
    intro hp
    obtain ⟨j, hj, _⟩ := hp 0 _ rfl
    omega

/-- Witness for C8, exercising the confirm-before-failed-persist leg at the
concrete one-puzzle, one-team upload. -/
theorem c8_witness :
    ctxOrg.user.id ∈ botW.ownerIds ∧ puUpW ≠ [] ∧ tuUpW ≠ [] ∧
    (Marathon.initializeR botW ctxOrg (some puUpW) (some tuUpW) fsIPR =
      ⟨[Event.confirm ("Initialized " ++ toString puUpW.length ++ " puzzles for " ++
          toString tuUpW.length ++ " teams.")],
       { fsIPR with attemptsFile := FileSt.truncated }, some PyExn.representerError⟩ ∧
     ¬ persistBeforeConfirms
        [Event.confirm ("Initialized " ++ toString puUpW.length ++ " puzzles for " ++
          toString tuUpW.length ++ " teams.")]) :=
  ⟨by decide, by decide, by decide,
   (c8_handler_template_runtime botW ctxOrg "beta" 5 "p1" "L" dtB fsIPR
      (plainAttempts attemptsIP) (plainRoster puzzlesW) (plainRoster teamsW)
      puUpW tuUpW).2.2.2.1 (by decide) (by decide) (by decide)⟩

/-- Claim C9: the persisted puzzles file is invariant under every command
except `initialize` — on every input (whatever the caller, the loaded state,
or whether the run denies, crashes, or completes) unlock, submit,
add_channel, remove_channel, add_player, remove_player, set_role and
list_players leave the puzzles file exactly as it was: no handler on this
list ever passes a puzzles collection to `store`, and no in-memory puzzle is
mutated. -/
theorem c9_puzzles_file_invariant (bot : BotCfg) (ctx : Ctx) (player : MemberM)
    (team puzzle link : String) (roleId : Int) (now : DT) (fs : FilesR) :
    (Marathon.unlockR ctx puzzle now fs).files.puzzlesFile = fs.puzzlesFile ∧
    (Marathon.submitR ctx puzzle link now fs).files.puzzlesFile = fs.puzzlesFile ∧
    (Marathon.add_channelR bot ctx team fs).files.puzzlesFile = fs.puzzlesFile ∧
    (Marathon.remove_channelR bot ctx team fs).files.puzzlesFile = fs.puzzlesFile ∧
    (Marathon.add_playerR bot ctx player team fs).files.puzzlesFile = fs.puzzlesFile ∧
    (Marathon.remove_playerR bot ctx player team fs).files.puzzlesFile = fs.puzzlesFile ∧
    (Marathon.set_roleR bot ctx team roleId fs).files.puzzlesFile = fs.puzzlesFile ∧
    (Marathon.list_playersR ctx team fs).files.puzzlesFile = fs.puzzlesFile := by
  refine ⟨?_, ?_, ?_, ?_, ?_, ?_, ?_, ?_⟩
  · unfold Marathon.unlockR
    repeat' first | split | dsimp only
    all_goals first | rfl | exact storeR_none_puzzlesFile _ _ _
  · unfold Marathon.submitR
    repeat' first | split | dsimp only
    all_goals first | rfl | exact storeR_none_puzzlesFile _ _ _
  · unfold Marathon.add_channelR
    repeat' first | split | dsimp only
    all_goals first | rfl | exact storeR_none_puzzlesFile _ _ _
  · unfold Marathon.remove_channelR
    repeat' first | split | dsimp only
    all_goals first | rfl | exact storeR_none_puzzlesFile _ _ _
  · unfold Marathon.add_playerR
    repeat' first | split | dsimp only
    all_goals first | rfl | exact storeR_none_puzzlesFile _ _ _
  · unfold Marathon.remove_playerR
    repeat' first | split | dsimp only
    all_goals first | rfl | exact storeR_none_puzzlesFile _ _ _
  · unfold Marathon.set_roleR
    repeat' first | split | dsimp only
    all_goals first | rfl | exact storeR_none_puzzlesFile _ _ _
  · unfold Marathon.list_playersR
    repeat' first | split | dsimp only

/-- Claim C10: `store` writes the puzzles (teams) file only when the passed
collection is non-empty: with explicitly supplied empty collections it
rewrites the attempts file and leaves both roster files exactly in place,
while a non-empty representable collection is written; and `initialize` on
empty uploads — the one store call its truthiness test ever skips on — writes
an empty attempts file and leaves the prior puzzles and teams files
untouched. -/
theorem c10_store_skips_empty (bot : BotCfg) (ctx : Ctx) (fs : FilesR)
    (attempts : PAttempts) (hA : attemptsHasEntity attempts = false)
    (hown : ctx.user.id ∈ bot.ownerIds) :
    storeR fs attempts (some []) (some []) =
      ({ fs with attemptsFile := FileSt.holds (dumpAttempts (stripAttempts attempts)) },
       none) ∧
    (∀ ps : PPuzzles, ps ≠ [] → rosterHasEntity ps = false →
      (storeR fs attempts (some ps) none).1.puzzlesFile =
        FileSt.holds (stripRoster ps)) ∧
    (∀ ts : PTeams, ts ≠ [] → rosterHasEntity ts = false →
      (storeR fs attempts none (some ts)).1.teamsFile =
        FileSt.holds (stripRoster ts)) ∧
    Marathon.initializeR bot ctx (some []) (some []) fs =
      ⟨[Event.confirm "Initialized 0 puzzles for 0 teams.", Event.persist],
       { fs with attemptsFile := FileSt.holds [] }, none⟩ := by
  refine ⟨?_, ?_, ?_, initializeR_empty bot ctx fs hown⟩
  · unfold storeR storePuzzlesR storeTeamsR
    rw [hA]
    rfl
  · intro ps hne hre
    rcases ps with _ | ⟨p, ps⟩
    · exact absurd rfl hne
    · unfold storeR
      rw [hA]
      simp only [Bool.false_eq_true, if_false]
      unfold storePuzzlesR
      dsimp only
      rw [show (p :: ps).isEmpty = false from rfl]
      simp only [Bool.false_eq_true, if_false]
      rw [hre]
      simp only [Bool.false_eq_true, if_false]
      rfl
  · intro ts hne hre
    rcases ts with _ | ⟨t, ts⟩
    · exact absurd rfl hne
    · unfold storeR
      rw [hA]
      simp only [Bool.false_eq_true, if_false]
      unfold storePuzzlesR storeTeamsR
      dsimp only
      rw [show (t :: ts).isEmpty = false from rfl]
      simp only [Bool.false_eq_true, if_false]
      rw [hre]
      simp only [Bool.false_eq_true, if_false]

/-- Witness for C10 at the concrete loaded (plain) attempts and files. -/
theorem c10_witness :
    attemptsHasEntity (plainAttempts attemptsNS) = false ∧
    ctxOrg.user.id ∈ botW.ownerIds ∧
    (storeR fsIPR (plainAttempts attemptsNS) (some []) (some []) =
      ({ fsIPR with attemptsFile :=
          FileSt.holds (dumpAttempts (stripAttempts (plainAttempts attemptsNS))) },
       none) ∧
    (∀ ps : PPuzzles, ps ≠ [] → rosterHasEntity ps = false →
      (storeR fsIPR (plainAttempts attemptsNS) (some ps) none).1.puzzlesFile =
        FileSt.holds (stripRoster ps)) ∧
    (∀ ts : PTeams, ts ≠ [] → rosterHasEntity ts = false →
      (storeR fsIPR (plainAttempts attemptsNS) none (some ts)).1.teamsFile =
        FileSt.holds (stripRoster ts)) ∧
    Marathon.initializeR botW ctxOrg (some []) (some []) fsIPR =
      ⟨[Event.confirm "Initialized 0 puzzles for 0 teams.", Event.persist],
       { fsIPR with attemptsFile := FileSt.holds [] }, none⟩) :=
  ⟨by decide, by decide,
   c10_store_skips_empty botW ctxOrg fsIPR (plainAttempts attemptsNS) (by decide)
     (by decide)⟩
